import Mathlib

/-!
Shallow embedding of `dbc.go` (package `dbc`), a thin wrapper layer over
Go's `database/sql`.  Driver-side behaviour (`sql.Stmt`, `sql.Row`,
`sql.Tx`) is modelled by oracle structures whose fields give the outcome
of each underlying call; the `dbc` wrappers are translated from the Go
source on top of those oracles.

Go's `interface{}` values are modelled by `Val`; a Go `[]interface{}`
slice passed as a single variadic element (the repeated `f(args)` versus
`f(args...)` pattern in the source) shows up as `Val.list args` occupying
one position of the driver-received argument list.
-/

/-- Opaque Go `interface\x7b\x7d` values: integers, strings, and slices of
values (a slice is itself a value, which is how a `[]interface\x7b\x7d`
passed without `...` reaches the driver as a single argument). -/
inductive Val where
  | int : Int → Val
  | str : String → Val
  | list : List Val → Val

/-- Go `error` values relevant to this layer: the eight sentinels declared
in `dbc.go` (never referenced by any function there), the two
`database/sql` package errors that the wrapped library can produce
(`sql.ErrTxDone`, `sql.ErrNoRows`), a marker for a nil-pointer panic
(which is not an error value any Go function returns; it only models
calling a method on a nil `*sql.Stmt`), and arbitrary driver errors. -/
inductive GoError where
  | errDbInsert
  | errDbSelect
  | errDbUpdate
  | errStmtCreate
  | errStmtClose
  | errStmtExec
  | errTxnBegin
  | errTxnCommit
  | errTxDone
  | errNoRows
  | nilDeref
  | drv : String → GoError
deriving DecidableEq, Repr

/-- `ErrDbInsert` sentinel from `dbc.go` line 11. -/
def ErrDbInsert : GoError := .errDbInsert

/-- `ErrDbSelect` sentinel from `dbc.go` line 12. -/
def ErrDbSelect : GoError := .errDbSelect

/-- `ErrDbUpdate` sentinel from `dbc.go` line 13. -/
def ErrDbUpdate : GoError := .errDbUpdate

/-- `ErrStmtCreate` sentinel from `dbc.go` line 14. -/
def ErrStmtCreate : GoError := .errStmtCreate

/-- `ErrStmtClose` sentinel from `dbc.go` line 15. -/
def ErrStmtClose : GoError := .errStmtClose

/-- `ErrStmtExec` sentinel from `dbc.go` line 16. -/
def ErrStmtExec : GoError := .errStmtExec

/-- `ErrTxnBegin` sentinel from `dbc.go` line 17. -/
def ErrTxnBegin : GoError := .errTxnBegin

/-- `ErrTxnCommit` sentinel from `dbc.go` line 18. -/
def ErrTxnCommit : GoError := .errTxnCommit

/-- Whether an error is one of the eight sentinels declared in `dbc.go`. -/
def GoError.isSentinel : GoError → Bool
  | .errDbInsert => true
  | .errDbSelect => true
  | .errDbUpdate => true
  | .errStmtCreate => true
  | .errStmtClose => true
  | .errStmtExec => true
  | .errTxnBegin => true
  | .errTxnCommit => true
  | _ => false

/-- Abstract `sql.Result` (the `dbc` layer only passes it through or
discards it, so an opaque token suffices). -/
abbrev SqlResult := Nat

/-- Model of a driver-level `sql.Row`: the one observable operation is
`Scan`, whose outcome is determined by the destination list the driver
actually receives. -/
structure SqlRow where
  scan : List Val → Option GoError

/-- Model of a driver-level prepared statement `sql.Stmt`.  `exec` takes
the index of the call (outcomes may differ between successive calls
because of database state) and the argument list the driver receives. -/
structure SqlStmt where
  exec : Nat → List Val → Except GoError SqlResult
  queryRow : List Val → SqlRow
  close : Option GoError

/-- `Query` from `dbc.go`: a SQL text and its parameterized arguments. -/
structure Query where
  Q : String
  Args : List Val

/-- `NewQuery` from `dbc.go`. -/
def NewQuery (q : String) (args : List Val) : Query :=
  ⟨q, args⟩

mutual

/-- Go `fmt` rendering of a single value with the `%v` verb: integers in
decimal, strings verbatim, slices as a bracketed space-separated list. -/
def fmtV : Val → String
  | .int n => toString n
  | .str s => s
  | .list vs => "[" ++ fmtVs vs ++ "]"

/-- Space-separated rendering of the elements of a slice, as `%v` does
inside the surrounding brackets. -/
def fmtVs : List Val → String
  | [] => ""
  | [v] => fmtV v
  | v :: vs => fmtV v ++ " " ++ fmtVs vs

end

/-- `%v` rendering of a Go `[]interface\x7b\x7d` argument slice. -/
def fmtArgs (args : List Val) : String :=
  "[" ++ fmtVs args ++ "]"

/-- `Query.String` from `dbc.go`: `fmt.Sprintf("[%s, %v]", q.Q, q.Args)`. -/
def Query.String (q : Query) :=
  "[" ++ q.Q ++ ", " ++ fmtArgs q.Args ++ "]"

/-- `DbRow` from `dbc.go`: wraps a `*sql.Row`.  (`sql.Stmt.QueryRow` and
`sql.Tx.QueryRow` never return a nil row, so the field is not optional.) -/
structure DbRow where
  R : SqlRow

/-- `DbRow.Scan` from `dbc.go`: `return r.R.Scan(args)`.  The source
passes the destination slice `args` itself — not `args...` — so the
driver row's scan receives a single destination holding the whole
slice. -/
def DbRow.Scan (r : DbRow) (args : List Val) : Option GoError :=
  r.R.scan [Val.list args]

/-- `DbStmt` from `dbc.go`: wraps a `*sql.Stmt`, which may be nil (as in
the statement returned alongside a failed `TxHandle.Prepare`);
`none` models the nil pointer. -/
structure DbStmt where
  S : Option SqlStmt

/-- `DbStmt.Close` from `dbc.go`: `return st.S.Close()`.  On a nil
statement the Go code would panic; the `nilDeref` marker models that. -/
def DbStmt.Close (st : DbStmt) : Option GoError :=
  match st.S with
  | some s => s.close
  | none => some .nilDeref

/-- `DbStmt.Exec` from `dbc.go`: `return st.S.Exec(args)`.  The source
passes the argument slice `args` itself — not `args...` — so the driver
statement receives a single argument holding the whole slice.  The extra
`i` is the model's call counter (threaded by `BatchInsert`). -/
def DbStmt.Exec (st : DbStmt) (i : Nat) (args : List Val) : Except GoError SqlResult :=
  match st.S with
  | some s => s.exec i [Val.list args]
  | none => .error .nilDeref

/-- `DbStmt.QueryRow` from `dbc.go`: `return &DbRow{st.S.QueryRow(args)}`.
Again the slice is passed as one value.  The returned wrapper is always a
value (the Go code always returns a non-nil `*DbRow`). -/
def DbStmt.QueryRow (st : DbStmt) (args : List Val) : DbRow :=
  match st.S with
  | some s => ⟨s.queryRow [Val.list args]⟩
  | none => ⟨⟨fun _ => some .nilDeref⟩⟩

/-- `DbRowV` from `dbc.go`: the column values of one row to insert. -/
structure DbRowV where
  V : List Val

/-- One run of the loop body plus final flush of `DbStmt.BatchInsert`,
instrumented with the list of argument lists passed to `st.Exec` (the
wrapper-level execute calls), starting at call index `i`:
for each row in order, `st.Exec(r.V...)`, stopping at the first error;
then one final `st.Exec()` with no arguments. -/
def batchInsertRun (st : DbStmt) : Nat → List DbRowV → List (List Val) × Except GoError Unit
  | i, [] =>
      ([[]],
        match st.Exec i [] with
        | .error e => .error e
        | .ok _ => .ok ())
  | i, r :: rs =>
      match st.Exec i r.V with
      | .error e => ([r.V], .error e)
      | .ok _ =>
          let rest := batchInsertRun st (i + 1) rs
          (r.V :: rest.1, rest.2)

/-- `DbStmt.BatchInsert` from `dbc.go`: the returned error of the run. -/
def DbStmt.BatchInsert (st : DbStmt) (rows : List DbRowV) : Except GoError Unit :=
  (batchInsertRun st 0 rows).2

/-- The sequence of execute calls (argument lists passed to `st.Exec`)
that `DbStmt.BatchInsert` performs. -/
def DbStmt.BatchInsertCalls (st : DbStmt) (rows : List DbRowV) : List (List Val) :=
  (batchInsertRun st 0 rows).1

/-- A driver statement that accepts the arguments `(1, "x")` bound
positionally and rejects anything else, exposing what it actually
received. -/
def sDiscr : SqlStmt :=
  ⟨fun _ received =>
      match received with
      | [Val.int 1, Val.str "x"] => .ok 1
      | _ => .error (.drv "driver received the argument slice as one value"),
    fun _ => ⟨fun _ => none⟩,
    none⟩

/-- A driver row that accepts the destinations `(7, 8)` passed
positionally and rejects anything else. -/
def rowDiscr : SqlRow :=
  ⟨fun received =>
      match received with
      | [Val.int 7, Val.int 8] => none
      | _ => some (.drv "destination not a pointer")⟩

/-- C7: for every text and argument list, `NewQuery(text, args).String()`
is the literal string `"[" ++ text ++ ", " ++ rendered arguments ++ "]"`;
concretely, `NewQuery "INSERT" [1, "x"]` renders as `"[INSERT, [1 x]]"`. -/
theorem dbc_C7 (text : String) (args : List Val) :
    (NewQuery text args).String = "[" ++ text ++ ", " ++ fmtArgs args ++ "]" ∧
    (NewQuery "INSERT" [Val.int 1, Val.str "x"]).String = "[INSERT, [1 x]]" :=
  ⟨rfl, rfl⟩

/-- C3 (code bug): `DbStmt.Exec` called with arguments `(1, "x")` does not
pass them positionally to the driver statement; the driver receives the
single argument `[1, "x"]` (the whole slice), because the source writes
`st.S.Exec(args)` instead of `st.S.Exec(args...)`.  Against a driver that
accepts exactly the positional arguments `(1, "x")`, the call fails. -/
theorem dbc_C3 :
    DbStmt.Exec ⟨some sDiscr⟩ 0 [Val.int 1, Val.str "x"] =
      .error (.drv "driver received the argument slice as one value") ∧
    [Val.list [Val.int 1, Val.str "x"]] ≠ [Val.int 1, Val.str "x"] := by
  constructor
  · rfl
  · simp

/-- C4 (code bug): `DbRow.Scan` called with destinations `(7, 8)` does not
pass them positionally to the driver row's scan; the driver scan receives
the single destination `[7, 8]` (the whole slice), because the source
writes `r.R.Scan(args)` instead of `r.R.Scan(args...)`.  Against a driver
row that accepts exactly the destinations `(7, 8)`, the scan fails. -/
theorem dbc_C4 :
    DbRow.Scan ⟨rowDiscr⟩ [Val.int 7, Val.int 8] =
      some (.drv "destination not a pointer") ∧
    [Val.list [Val.int 7, Val.int 8]] ≠ [Val.int 7, Val.int 8] := by
  constructor
  · rfl
  · simp

/-- When every execute call from index `j` on succeeds (each row in order,
then the flush), the run performs exactly one call per row followed by the
empty flushing call, and returns no error. -/
lemma batchInsertRun_all_ok (st : DbStmt) (rows : List DbRowV) :
    ∀ (j : Nat),
      (∀ i (h : i < rows.length), ∃ v, DbStmt.Exec st (j + i) (rows.get ⟨i, h⟩).V = Except.ok v) →
      (∃ v, DbStmt.Exec st (j + rows.length) [] = Except.ok v) →
      batchInsertRun st j rows = (rows.map DbRowV.V ++ [[]], Except.ok ()) := by
  induction rows with
  | nil =>
      intro j _ hflush
      obtain ⟨v, hv⟩ := hflush
      have hv' : DbStmt.Exec st j [] = Except.ok v := hv
      simp [batchInsertRun, hv']
  | cons r rs ih =>
      intro j hrows hflush
      obtain ⟨v0, hv0⟩ := hrows 0 (Nat.succ_pos _)
      have hv0' : DbStmt.Exec st j r.V = Except.ok v0 := hv0
      have hpre' : ∀ i (h : i < rs.length), ∃ v,
          DbStmt.Exec st (j + 1 + i) (rs.get ⟨i, h⟩).V = Except.ok v := by
        intro i h
        have h2 := hrows (i + 1) (Nat.succ_lt_succ h)
        have harith : j + (i + 1) = j + 1 + i := by omega
        rw [harith] at h2
        exact h2
      have hflush' : ∃ v, DbStmt.Exec st (j + 1 + rs.length) [] = Except.ok v := by
        have harith : j + (r :: rs).length = j + 1 + rs.length := by
          simp [List.length_cons]
          omega
        rw [harith] at hflush
        exact hflush
      have hrec := ih (j + 1) hpre' hflush'
      simp [batchInsertRun, hv0', hrec]

/-- When the execute call for row `k` fails (and all earlier rows
succeed), the run performs exactly the calls for rows `0..k` and returns
that error without flushing. -/
lemma batchInsertRun_fail (st : DbStmt) (e : GoError) :
    ∀ (k : Nat) (rows : List DbRowV) (j : Nat) (hk : k < rows.length),
      (∀ i (h : i < k), ∃ v,
        DbStmt.Exec st (j + i) (rows.get ⟨i, Nat.lt_trans h hk⟩).V = Except.ok v) →
      DbStmt.Exec st (j + k) (rows.get ⟨k, hk⟩).V = Except.error e →
      batchInsertRun st j rows = ((rows.take (k + 1)).map DbRowV.V, Except.error e) := by
  intro k
  induction k with
  | zero =>
      intro rows j hk hpre hfail
      cases rows with
      | nil => simp at hk
      | cons r rs =>
          have hfail' : DbStmt.Exec st j r.V = Except.error e := hfail
          simp [batchInsertRun, hfail']
  | succ k ihk =>
      intro rows j hk hpre hfail
      cases rows with
      | nil => simp at hk
      | cons r rs =>
          obtain ⟨v0, hv0⟩ := hpre 0 (Nat.succ_pos _)
          have hv0' : DbStmt.Exec st j r.V = Except.ok v0 := hv0
          have hk' : k < rs.length := Nat.lt_of_succ_lt_succ hk
          have hpre' : ∀ i (h : i < k), ∃ v,
              DbStmt.Exec st (j + 1 + i) (rs.get ⟨i, Nat.lt_trans h hk'⟩).V = Except.ok v := by
            intro i h
            have h2 := hpre (i + 1) (Nat.succ_lt_succ h)
            have harith : j + (i + 1) = j + 1 + i := by omega
            rw [harith] at h2
            exact h2
          have hfail' : DbStmt.Exec st (j + 1 + k) (rs.get ⟨k, hk'⟩).V = Except.error e := by
            have harith : j + (k + 1) = j + 1 + k := by omega
            rw [harith] at hfail
            exact hfail
          have hrec := ihk rs (j + 1) hk' hpre' hfail'
          simp [batchInsertRun, hv0', hrec]

/-- C1: when every row's execute call and the final flush succeed,
`BatchInsert` performs one execute call per row with that row's values (in
sequence order), then exactly one zero-argument flushing execute call, and
returns no error; for the empty list it performs exactly the flushing call
and succeeds precisely when that call succeeds. -/
theorem dbc_C1 (st : DbStmt) (rows : List DbRowV)
    (hrows : ∀ i (h : i < rows.length), ∃ v,
      DbStmt.Exec st i (rows.get ⟨i, h⟩).V = Except.ok v)
    (hflush : ∃ v, DbStmt.Exec st rows.length [] = Except.ok v) :
    DbStmt.BatchInsertCalls st rows = rows.map DbRowV.V ++ [[]] ∧
    DbStmt.BatchInsert st rows = Except.ok () ∧
    ∀ st2 : DbStmt, DbStmt.BatchInsertCalls st2 [] = [[]] ∧
      (DbStmt.BatchInsert st2 [] = Except.ok () ↔ ∃ v, DbStmt.Exec st2 0 [] = Except.ok v) := by
  have hrun := batchInsertRun_all_ok st rows 0
    (fun i h => by have h2 := hrows i h; rw [Nat.zero_add]; exact h2)
    (by rw [Nat.zero_add]; exact hflush)
  refine ⟨?_, ?_, ?_⟩
  · simp [DbStmt.BatchInsertCalls, hrun]
  · simp [DbStmt.BatchInsert, hrun]
  · intro st2
    refine ⟨rfl, ?_⟩
    cases hE : DbStmt.Exec st2 0 [] with
    | error e2 => simp [DbStmt.BatchInsert, batchInsertRun, hE]
    | ok v => simp [DbStmt.BatchInsert, batchInsertRun, hE]

/-- A driver statement on which every execute call succeeds. -/
def sOK : SqlStmt :=
  ⟨fun _ _ => .ok 0, fun _ => ⟨fun _ => none⟩, none⟩

/-- A usable statement wrapper around `sOK`. -/
def stOK : DbStmt := ⟨some sOK⟩

/-- The two rows of the spec scenario: `[[1, "x"], [2, "y"]]`. -/
def rows2 : List DbRowV :=
  [⟨[Val.int 1, Val.str "x"]⟩, ⟨[Val.int 2, Val.str "y"]⟩]

/-- C1 witness: on the spec's two-row scenario with an always-succeeding
statement, the calls are the two rows then the empty flush, and no error. -/
theorem dbc_C1_witness :
    DbStmt.BatchInsertCalls stOK rows2 =
      [[Val.int 1, Val.str "x"], [Val.int 2, Val.str "y"], []] ∧
    DbStmt.BatchInsert stOK rows2 = Except.ok () :=
  ⟨(dbc_C1 stOK rows2 (fun _ _ => ⟨0, rfl⟩) ⟨0, rfl⟩).1,
   (dbc_C1 stOK rows2 (fun _ _ => ⟨0, rfl⟩) ⟨0, rfl⟩).2.1⟩

/-- C2: when the execute call for row `k` fails and all earlier rows
succeed, `BatchInsert` returns that error and the execute calls performed
are exactly those for rows `0..k` — no calls for later rows and no
flushing call. -/
theorem dbc_C2 (st : DbStmt) (rows : List DbRowV) (k : Nat) (e : GoError)
    (hk : k < rows.length)
    (hpre : ∀ i (h : i < k), ∃ v,
      DbStmt.Exec st i (rows.get ⟨i, Nat.lt_trans h hk⟩).V = Except.ok v)
    (hfail : DbStmt.Exec st k (rows.get ⟨k, hk⟩).V = Except.error e) :
    DbStmt.BatchInsert st rows = Except.error e ∧
    DbStmt.BatchInsertCalls st rows = (rows.take (k + 1)).map DbRowV.V := by
  have hrun := batchInsertRun_fail st e k rows 0 hk
    (fun i h => by have h2 := hpre i h; rw [Nat.zero_add]; exact h2)
    (by rw [Nat.zero_add]; exact hfail)
  exact ⟨by simp [DbStmt.BatchInsert, hrun], by simp [DbStmt.BatchInsertCalls, hrun]⟩

/-- A driver statement whose first execute call succeeds and whose later
calls all fail. -/
def sFailAt1 : SqlStmt :=
  ⟨fun i _ =>
      match i with
      | 0 => .ok 0
      | _ + 1 => .error (.drv "boom"),
    fun _ => ⟨fun _ => none⟩,
    none⟩

/-- A statement wrapper around `sFailAt1`. -/
def stFailAt1 : DbStmt := ⟨some sFailAt1⟩

/-- Three rows; with `stFailAt1`, row 1 (0-indexed) triggers the error. -/
def rows3 : List DbRowV := [⟨[Val.int 1]⟩, ⟨[Val.int 2]⟩, ⟨[Val.int 3]⟩]

/-- C2 witness: with three rows and a failure at row 1, `BatchInsert`
returns the error and only rows 0 and 1 were executed — no row 2, no
flush. -/
theorem dbc_C2_witness :
    DbStmt.BatchInsert stFailAt1 rows3 = Except.error (.drv "boom") ∧
    DbStmt.BatchInsertCalls stFailAt1 rows3 = [[Val.int 1], [Val.int 2]] :=
  ⟨(dbc_C2 stFailAt1 rows3 1 (.drv "boom") (by decide)
      (fun i h =>
        match i, h with
        | 0, _ => ⟨0, rfl⟩
        | _ + 1, h => absurd h (by omega))
      rfl).1,
   (dbc_C2 stFailAt1 rows3 1 (.drv "boom") (by decide)
      (fun i h =>
        match i, h with
        | 0, _ => ⟨0, rfl⟩
        | _ + 1, h => absurd h (by omega))
      rfl).2⟩

/-- Oracle for the behaviour of the driver session underlying a `sql.Tx`
while the transaction is open: outcomes of the underlying commit,
rollback, exec, prepare (Go convention: a nil statement alongside an
error) and single-row query. -/
structure SqlTxOracle where
  commit : Option GoError
  rollback : Option GoError
  exec : String → List Val → Except GoError SqlResult
  prepare : String → Option SqlStmt × Option GoError
  queryRow : String → List Val → SqlRow

/-- Model of Go's `database/sql` transaction object `sql.Tx`, from its
documented contract: a `done` flag is set by the first `Commit` or
`Rollback` call (whether or not the underlying operation succeeds), and
afterwards every operation fails with `sql.ErrTxDone` (`QueryRow`, which
cannot fail synchronously, defers it to the returned row's scan). -/
structure SqlTx where
  o : SqlTxOracle
  done : Bool

/-- `sql.Tx.Commit`: on an already-done transaction, `sql.ErrTxDone`;
otherwise mark done and report the underlying commit outcome. -/
def SqlTx.commit (t : SqlTx) : SqlTx × Option GoError :=
  if t.done then (t, some .errTxDone)
  else (⟨t.o, true⟩, t.o.commit)

/-- `sql.Tx.Rollback`: on an already-done transaction, `sql.ErrTxDone`;
otherwise mark done and report the underlying rollback outcome. -/
def SqlTx.rollback (t : SqlTx) : SqlTx × Option GoError :=
  if t.done then (t, some .errTxDone)
  else (⟨t.o, true⟩, t.o.rollback)

/-- `sql.Tx.Exec` on the model: fails with `sql.ErrTxDone` once done. -/
def SqlTx.exec (t : SqlTx) (query : String) (args : List Val) : Except GoError SqlResult :=
  if t.done then .error .errTxDone else t.o.exec query args

/-- `sql.Tx.Prepare` on the model: `(nil, sql.ErrTxDone)` once done. -/
def SqlTx.prepare (t : SqlTx) (query : String) : Option SqlStmt × Option GoError :=
  if t.done then (none, some .errTxDone) else t.o.prepare query

/-- `sql.Tx.QueryRow` on the model: once done, a row whose scan reports
`sql.ErrTxDone`. -/
def SqlTx.queryRow (t : SqlTx) (query : String) (args : List Val) : SqlRow :=
  if t.done then ⟨fun _ => some .errTxDone⟩ else t.o.queryRow query args

/-- `TxHandle` from `dbc.go`: wraps a `*sql.Tx`. -/
structure TxHandle where
  T : SqlTx

/-- `TxHandle.Exec` from `dbc.go`: `return tx.T.Exec(query, args...)` —
this one does spread the arguments, so they are forwarded unchanged. -/
def TxHandle.Exec (tx : TxHandle) (query : String) (args : List Val) : Except GoError SqlResult :=
  tx.T.exec query args

/-- `TxHandle.Prepare` from `dbc.go`:
`s, err := tx.T.Prepare(query); return &DbStmt{s}, err` — the statement
wrapper value is always returned (a non-nil `*DbStmt`), even when `s` is
nil because the underlying prepare failed. -/
def TxHandle.Prepare (tx : TxHandle) (query : String) : DbStmt × Option GoError :=
  ((⟨(tx.T.prepare query).1⟩ : DbStmt), (tx.T.prepare query).2)

/-- `TxHandle.QueryRow` from `dbc.go`:
`return &DbRow{tx.T.QueryRow(query, args)}` — the argument slice is
passed without `...`, so the driver receives it as one value. -/
def TxHandle.QueryRow (tx : TxHandle) (query : String) (args : List Val) : DbRow :=
  ⟨tx.T.queryRow query [Val.list args]⟩

/-- `TxHandle.Commit` from `dbc.go`: `return tx.T.Commit()`. -/
def TxHandle.Commit (tx : TxHandle) : TxHandle × Option GoError :=
  (⟨(tx.T.commit).1⟩, (tx.T.commit).2)

/-- `TxHandle.Rollback` from `dbc.go`: `return tx.T.Rollback()`. -/
def TxHandle.Rollback (tx : TxHandle) : TxHandle × Option GoError :=
  (⟨(tx.T.rollback).1⟩, (tx.T.rollback).2)

/-- Oracle for a driver connection session (`sql.DB`). -/
structure SqlDb where
  exec : String → List Val → Except GoError SqlResult
  prepare : String → Option SqlStmt × Option GoError
  queryRow : String → List Val → SqlRow

/-- Modelled from the spec: the Connection variant of the `Handle`
contract is absent from `src/dbc.go` (the `Handle` interface comment says
a handle can be a database connection or a transaction, but only the
transaction variant `TxHandle` is implemented there); per the spec the
connection variant forwards every operation unchanged to the underlying
driver connection. -/
structure DbHandle where
  D : SqlDb

/-- Modelled from the spec: connection `Exec` forwards unchanged. -/
def DbHandle.Exec (h : DbHandle) (query : String) (args : List Val) : Except GoError SqlResult :=
  h.D.exec query args

/-- Modelled from the spec: connection `Prepare` forwards unchanged and
wraps the returned driver statement. -/
def DbHandle.Prepare (h : DbHandle) (query : String) : DbStmt × Option GoError :=
  ((⟨(h.D.prepare query).1⟩ : DbStmt), (h.D.prepare query).2)

/-- Modelled from the spec: connection `QueryRow` forwards unchanged. -/
def DbHandle.QueryRow (h : DbHandle) (query : String) (args : List Val) : DbRow :=
  ⟨h.D.queryRow query args⟩

/-- The `Handle` interface from `dbc.go`: the dictionary of operations an
implementation must provide (`Exec`, `Prepare`, `QueryRow`). -/
structure HandleOps (H : Type) where
  hExec : H → String → List Val → Except GoError SqlResult
  hPrepare : H → String → DbStmt × Option GoError
  hQueryRow : H → String → List Val → DbRow

/-- The Connection variant's `Handle` dictionary (spec-modelled). -/
def connHandleOps : HandleOps DbHandle :=
  ⟨DbHandle.Exec, DbHandle.Prepare, DbHandle.QueryRow⟩

/-- The Transaction variant's `Handle` dictionary (from `dbc.go`). -/
def txHandleOps : HandleOps TxHandle :=
  ⟨TxHandle.Exec, TxHandle.Prepare, TxHandle.QueryRow⟩

/-- A driver statement for a query matching zero rows: the row returned by
`queryRow` defers `sql.ErrNoRows` to its scan. -/
def sNoRows : SqlStmt :=
  ⟨fun _ _ => .ok 0, fun _ => ⟨fun _ => some .errNoRows⟩, none⟩

/-- C5: `QueryRow` never fails synchronously — on both the statement
wrapper and the transaction handle it always returns a row value, and any
failure surfaces only through that row's `Scan`, which reports exactly
what the underlying driver row's scan reports; on a zero-rows query the
deferred failure is `sql.ErrNoRows`. -/
theorem dbc_C5 (s : SqlStmt) (t : SqlTx) (q : String) (args dests : List Val) :
    (∃ r : DbRow, DbStmt.QueryRow ⟨some s⟩ args = r) ∧
    (DbStmt.QueryRow ⟨some s⟩ args).R = s.queryRow [Val.list args] ∧
    DbRow.Scan (DbStmt.QueryRow ⟨some s⟩ args) dests =
      (s.queryRow [Val.list args]).scan [Val.list dests] ∧
    (∃ r : DbRow, TxHandle.QueryRow ⟨t⟩ q args = r) ∧
    DbRow.Scan (TxHandle.QueryRow ⟨t⟩ q args) dests =
      (SqlTx.queryRow t q [Val.list args]).scan [Val.list dests] ∧
    DbRow.Scan (DbStmt.QueryRow ⟨some sNoRows⟩ args) dests = some .errNoRows :=
  ⟨⟨_, rfl⟩, rfl, rfl, ⟨_, rfl⟩, rfl, rfl⟩

/-- An open transaction whose driver `queryRow` accepts the positionally
forwarded arguments `(1, 2)` and rejects anything else. -/
def txEcho : TxHandle :=
  ⟨⟨⟨none, none, fun _ _ => .ok 0, fun _ => (none, none),
      fun _ received =>
        match received with
        | [Val.int 1, Val.int 2] => ⟨fun _ => none⟩
        | _ => ⟨fun _ => some (.drv "args not forwarded unchanged")⟩⟩,
    false⟩⟩

/-- C6 (code bug): the spec-modelled Connection variant forwards `Exec`
and `QueryRow` unchanged, and the Transaction variant additionally has
`Commit`/`Rollback`; but the Transaction variant does not forward
`QueryRow` unchanged — called with arguments `(1, 2)` it hands the driver
the single argument `[1, 2]` (the source writes `tx.T.QueryRow(query,
args)` instead of `args...`), so a driver expecting the positional
arguments rejects the call. -/
theorem dbc_C6 :
    (∀ (db : SqlDb) (q : String) (args : List Val),
      connHandleOps.hExec ⟨db⟩ q args = db.exec q args ∧
      (connHandleOps.hQueryRow ⟨db⟩ q args).R = db.queryRow q args) ∧
    (TxHandle.Commit txEcho).2 = (SqlTx.commit txEcho.T).2 ∧
    (TxHandle.Rollback txEcho).2 = (SqlTx.rollback txEcho.T).2 ∧
    ((txHandleOps.hQueryRow txEcho "q" [Val.int 1, Val.int 2]).R.scan [] =
      some (.drv "args not forwarded unchanged")) ∧
    [Val.list [Val.int 1, Val.int 2]] ≠ [Val.int 1, Val.int 2] := by
  refine ⟨fun db q args => ⟨rfl, rfl⟩, rfl, rfl, rfl, by simp⟩

/-- A fully succeeding transaction oracle. -/
def o0 : SqlTxOracle :=
  ⟨none, none, fun _ _ => .ok 0, fun _ => (none, none), fun _ _ => ⟨fun _ => none⟩⟩

/-- C8: the transaction state machine.  A fresh transaction is Open
(`done = false`); a successful `Commit` moves it to the terminal Committed
state (`done`, no error) and `Rollback` to the terminal Rolled-back state;
any `Commit` call leaves the transaction done; and once done, every
subsequent `Commit`/`Rollback`/`Exec`/`Prepare` call returns
`sql.ErrTxDone` (never a silent success), while `QueryRow` yields a row
whose `Scan` reports it. -/
theorem dbc_C8 (o : SqlTxOracle) (q : String) (args dests : List Val)
    (h : TxHandle) (hdone : h.T.done = true) (hc : o.commit = none) :
    (TxHandle.mk ⟨o, false⟩).T.done = false ∧
    TxHandle.Commit ⟨⟨o, false⟩⟩ = (⟨⟨o, true⟩⟩, none) ∧
    TxHandle.Rollback ⟨⟨o, false⟩⟩ = (⟨⟨o, true⟩⟩, o.rollback) ∧
    (TxHandle.Commit ⟨⟨o, false⟩⟩).1.T.done = true ∧
    TxHandle.Commit h = (h, some .errTxDone) ∧
    TxHandle.Rollback h = (h, some .errTxDone) ∧
    TxHandle.Exec h q args = .error .errTxDone ∧
    TxHandle.Prepare h q = (⟨none⟩, some .errTxDone) ∧
    DbRow.Scan (TxHandle.QueryRow h q args) dests = some .errTxDone := by
  obtain ⟨⟨o2, d⟩⟩ := h
  cases d with
  | false => simp at hdone
  | true =>
      refine ⟨rfl, ?_, rfl, rfl, rfl, rfl, rfl, rfl, rfl⟩
      simp [TxHandle.Commit, SqlTx.commit, hc]

/-- C8 witness: a concrete open transaction commits into the done state
with no error, and a concrete done transaction rejects `Exec` with
`sql.ErrTxDone`. -/
theorem dbc_C8_witness :
    TxHandle.Commit ⟨⟨o0, false⟩⟩ = (⟨⟨o0, true⟩⟩, none) ∧
    TxHandle.Exec ⟨⟨o0, true⟩⟩ "q" [] = .error .errTxDone :=
  ⟨(dbc_C8 o0 "q" [] [] ⟨⟨o0, true⟩⟩ rfl rfl).2.1,
   (dbc_C8 o0 "q" [] [] ⟨⟨o0, true⟩⟩ rfl rfl).2.2.2.2.2.2.1⟩

/-- C9: when the underlying driver prepare fails on an open transaction,
`TxHandle.Prepare` returns the error together with a statement wrapper
value (never a nil `Statement` — the Go code always returns `&DbStmt{s}`)
whose wrapped driver statement is nil. -/
theorem dbc_C9 (tx : TxHandle) (q : String) (e : GoError)
    (hopen : tx.T.done = false)
    (hp : tx.T.o.prepare q = (none, some e)) :
    TxHandle.Prepare tx q = (⟨none⟩, some e) ∧
    ∃ st : DbStmt, TxHandle.Prepare tx q = (st, some e) ∧ st.S = none := by
  have hP : SqlTx.prepare tx.T q = (none, some e) := by
    simp [SqlTx.prepare, hopen, hp]
  refine ⟨?_, ⟨⟨none⟩, ?_, rfl⟩⟩
  · simp [TxHandle.Prepare, hP]
  · simp [TxHandle.Prepare, hP]

/-- An open transaction whose driver cannot prepare any statement. -/
def txPrepFail : TxHandle :=
  ⟨⟨⟨none, none, fun _ _ => .ok 0,
      fun _ => (none, some (.drv "driver cannot prepare this statement")),
      fun _ _ => ⟨fun _ => none⟩⟩,
    false⟩⟩

/-- C9 witness: a concrete failing prepare yields the driver's error and a
statement wrapper holding a nil driver statement. -/
theorem dbc_C9_witness :
    TxHandle.Prepare txPrepFail "INSRT" =
      (⟨none⟩, some (.drv "driver cannot prepare this statement")) :=
  (dbc_C9 txPrepFail "INSRT" (.drv "driver cannot prepare this statement") rfl rfl).1

/-- Every error the run of `BatchInsert` returns is an error some
wrapper-level execute call returned. -/
lemma batchInsertRun_error (st : DbStmt) :
    ∀ (rows : List DbRowV) (j : Nat) (e : GoError),
      (batchInsertRun st j rows).2 = Except.error e →
      ∃ i as, DbStmt.Exec st i as = Except.error e := by
  intro rows
  induction rows with
  | nil =>
      intro j e h
      refine ⟨j, [], ?_⟩
      cases hE : DbStmt.Exec st j [] with
      | error e2 =>
          have he : e2 = e := by simp [batchInsertRun, hE] at h; exact h
          rw [he]
      | ok v => simp [batchInsertRun, hE] at h
  | cons r rs ih =>
      intro j e h
      cases hE : DbStmt.Exec st j r.V with
      | error e2 =>
          have he : e2 = e := by simp [batchInsertRun, hE] at h; exact h
          exact ⟨j, r.V, by rw [hE, he]⟩
      | ok v =>
          have h2 : (batchInsertRun st (j + 1) rs).2 = Except.error e := by
            simp only [batchInsertRun, hE] at h
            exact h
          exact ih (j + 1) e h2

/-- C10: the layer adds nothing to errors.  Each wrapper operation's error
result equals the wrapped call's error result, unmodified; any error
`BatchInsert` returns is one some driver execute call returned; and when
the driver never produces one of the eight declared sentinels, neither
does `BatchInsert` — the sentinels are declared in `dbc.go` but no
operation there ever returns, wraps or produces them. -/
theorem dbc_C10 (s : SqlStmt) (t : SqlTx) (r : SqlRow) (i : Nat) (q : String)
    (args dests : List Val) (rows : List DbRowV)
    (hclean : ∀ j as e, s.exec j as = Except.error e → GoError.isSentinel e = false) :
    DbStmt.Exec ⟨some s⟩ i args = s.exec i [Val.list args] ∧
    DbStmt.Close ⟨some s⟩ = s.close ∧
    DbRow.Scan ⟨r⟩ dests = r.scan [Val.list dests] ∧
    TxHandle.Exec ⟨t⟩ q args = SqlTx.exec t q args ∧
    (TxHandle.Prepare ⟨t⟩ q).2 = (SqlTx.prepare t q).2 ∧
    (TxHandle.Commit ⟨t⟩).2 = (SqlTx.commit t).2 ∧
    (TxHandle.Rollback ⟨t⟩).2 = (SqlTx.rollback t).2 ∧
    (∀ e, DbStmt.BatchInsert ⟨some s⟩ rows = Except.error e →
      ∃ j as, s.exec j as = Except.error e) ∧
    (∀ e, DbStmt.BatchInsert ⟨some s⟩ rows = Except.error e →
      GoError.isSentinel e = false) := by
  refine ⟨rfl, rfl, rfl, rfl, rfl, rfl, rfl, ?_, ?_⟩
  · intro e h
    obtain ⟨j, as, hja⟩ := batchInsertRun_error ⟨some s⟩ rows 0 e h
    exact ⟨j, [Val.list as], hja⟩
  · intro e h
    obtain ⟨j, as, hja⟩ := batchInsertRun_error ⟨some s⟩ rows 0 e h
    exact hclean j [Val.list as] e hja

/-- A concrete open transaction state for witnesses. -/
def t0 : SqlTx := ⟨o0, false⟩

/-- A concrete driver row whose scan always succeeds. -/
def r0 : SqlRow := ⟨fun _ => none⟩

/-- C10 witness: on a concrete always-succeeding driver statement (on
which the sentinel-freedom hypothesis holds vacuously), the wrapper's
`Exec` and `Close` results are exactly the wrapped calls' results. -/
theorem dbc_C10_witness :
    DbStmt.Exec ⟨some sOK⟩ 0 [Val.int 1] = sOK.exec 0 [Val.list [Val.int 1]] ∧
    DbStmt.Close ⟨some sOK⟩ = sOK.close :=
  ⟨(dbc_C10 sOK t0 r0 0 "q" [Val.int 1] [] [] (fun _ _ _ hE => Except.noConfusion hE)).1,
   (dbc_C10 sOK t0 r0 0 "q" [Val.int 1] [] [] (fun _ _ _ hE => Except.noConfusion hE)).2.1⟩
